import Mathlib

/-!
Shallow embedding of the selection-and-enrichment pipeline of
`src/streamlit_app.py` (an Airbnb listings dashboard), together with
theorems settling the spec's claims about it.

Modelling choices:
* A pandas dataframe row becomes a `Listing` structure; a dataframe
  becomes a `List Listing`.  Floating-point CSV values are modelled as
  exact rationals (`Rat`).
* The two boolean-mask filters of lines 138-140 become `filterListings`.
* `np.average` returns NaN on an empty array; this is modelled by
  `NpFloat` with an explicit `nan` constructor.  `astype(int)` applied
  to NaN yields an implementation-defined value (on the usual platforms
  the most negative int64), modelled by `npNanCastInt`.
* Fallible external calls (geopy reverse geocoding, the Airbnb review
  API) become `Except String`-valued adapter functions; geopy's
  "no result found" outcome is `Except.ok none`.
* The enrichment loop `getLocationDisplayNameByDF` (lines 29-42), which
  has no try/except, becomes `enrichLoopE`, which also records the
  trace of adapter calls made before returning or failing.
-/

namespace AirbnbApp

/-- One row of the CSV table loaded at lines 66-76.  Positional columns:
0 = "Airbnb Listing ID", 1 = "Price", 2 = "Latitude", 3 = "Longitude",
4 = "Dist.(m) from loc.", 5 = "Location". -/
structure Listing where
  listingId : Rat
  price : Rat
  latitude : Rat
  longitude : Rat
  distM : Rat
  locationKind : Rat
deriving DecidableEq

/-- Lines 138-140: `dataframe = dataframe[dataframe["Price"] <= max_budget]`
followed by `dataframe = dataframe[dataframe["Dist.(m) from loc."] <= max_distance]`:
two successive boolean-mask filters, each keeping rows satisfying an
inclusive comparison, in the original row order. -/
def filterListings (T : List Listing) (maxBudget maxDistance : Rat) : List Listing :=
  (T.filter (fun row => decide (row.price ≤ maxBudget))).filter
    (fun row => decide (row.distM ≤ maxDistance))

/-- Line 168: `fig.update_geos(center=dict(lat=dataframe.iloc[0][2], lon=dataframe.iloc[0][3]))`.
Positional columns 2 and 3 are Latitude and Longitude.  `iloc[0]` on an
empty dataframe raises `IndexError`; that out-of-bounds access is
modelled as `none`. -/
def ilocMapCenter (df : List Listing) : Option (Rat × Rat) :=
  match df with
  | [] => none
  | row :: _ => some (row.latitude, row.longitude)

/-- A numpy float64 as far as this program exercises it: either NaN or
an exact numeric value. -/
inductive NpFloat where
  | nan : NpFloat
  | val : Rat → NpFloat
deriving DecidableEq

/-- The exact arithmetic mean of a list of integer ratings. -/
def listMean (xs : List Int) : Rat :=
  (xs.map (fun x => (x : Rat))).sum / (xs.length : Rat)

/-- Line 54, first half: `np.average(np.array(ratings))`.  On an empty
array numpy emits a warning and the result is NaN; otherwise it is the
arithmetic mean. -/
def npAverage (xs : List Int) : NpFloat :=
  if xs.isEmpty then NpFloat.nan else NpFloat.val (listMean xs)

/-- Truncation toward zero of a rational, the behaviour of
`float.astype(int)` on a finite value. -/
def truncTowardZero (q : Rat) : Int :=
  q.num.tdiv (q.den : Int)

/-- The implementation-defined integer that `astype(int)` produces from
NaN (the most negative int64 on the usual platforms). -/
def npNanCastInt : Int := -(2 ^ 63)

/-- Line 54, second half: `.astype(int)` on the numpy average. -/
def castNpFloatToInt : NpFloat → Int
  | NpFloat.nan => npNanCastInt
  | NpFloat.val q => truncTowardZero q

/-- Lines 52-54 applied to an already-fetched list of review ratings:
`np.average(np.array(ratings)).astype(int)`. -/
def averageRatingCore (ratings : List Int) : Int :=
  castNpFloatToInt (npAverage ratings)

/-- Line 46, the normalization actually performed on the listing id:
`str(listing_id).replace(".","")` removes every dot character and
nothing else. -/
def cleanListingId (s : String) : String :=
  String.mk (s.data.filter (fun c => c != '.'))

/-- Modelled from the spec's words, for the refinement claim about id
normalization only: "removing any non-digit formatting characters",
i.e. keep exactly the digit characters. -/
def specNormalizeId (s : String) : String :=
  String.mk (s.data.filter Char.isDigit)

/-- Value of a digit string, most significant first. -/
def digitsVal (cs : List Char) : Nat :=
  cs.foldl (fun acc c => 10 * acc + (c.toNat - Char.toNat '0')) 0

/-- Python's `int(s)` on the string forms this program produces: an
optional sign followed by one or more digits parses to that integer;
anything else raises `ValueError`, modelled as `none`. -/
def parseIntPy (s : String) : Option Int :=
  match s.data with
  | [] => none
  | '-' :: rest =>
      if rest ≠ [] ∧ rest.all Char.isDigit then some (-(digitsVal rest : Int)) else none
  | '+' :: rest =>
      if rest ≠ [] ∧ rest.all Char.isDigit then some ((digitsVal rest : Int)) else none
  | cs =>
      if cs.all Char.isDigit then some ((digitsVal cs : Int)) else none

/-- Lines 44-55, `get_airbnb_rating`: clean the id with
`replace(".","")`, convert with `int(...)` (ValueError on failure),
fetch the reviews from the external service keyed by the cleaned id,
and return `np.average(ratings).astype(int)`.  The review service is a
function parameter `fetchReviews id offset limit`. -/
def get_airbnb_rating (fetchReviews : Int → Nat → Nat → List Int)
    (listingId : String) (offset limitResults : Nat) : Except String Int :=
  match parseIntPy (cleanListingId listingId) with
  | none => Except.error "ValueError"
  | some lid => Except.ok (averageRatingCore (fetchReviews lid offset limitResults))

/-- The structured result of a successful geopy reverse lookup, reduced
to the one field the program reads: `location.raw` holds a
`display_name` string (line 40). -/
structure RawLocation where
  displayName : String
deriving DecidableEq

/-- One row of the dataframe built at line 42:
`[listing_id, "⭐" * rating, location.raw["display_name"]]`. -/
structure EnrichedRecord where
  listingId : Rat
  rating : String
  address : String
deriving DecidableEq

/-- Python's `"⭐" * rating`: the star repeated `rating` times (empty
for a non-positive count). -/
def starsFor (n : Int) : String :=
  String.mk (List.replicate n.toNat '⭐')

/-- One external call made by the enrichment loop, recorded in order. -/
inductive AdapterCall where
  | reverseGeocode : Rat → Rat → AdapterCall
  | getRating : Rat → AdapterCall
deriving DecidableEq

/-- The exception raised at line 40 when `geolocator.reverse` returned
`None` and the code accesses `location.raw`. -/
def noneRawMsg : String := "AttributeError: NoneType object has no attribute raw"

/-- Lines 29-42, `getLocationDisplayNameByDF`: loop over the selected
rows in order; per row call `geolocator.reverse` (line 36), then
`get_airbnb_rating` (line 39), then read `location.raw["display_name"]`
(line 40) and append the record.  There is no try/except, so any
exception propagates and the function never returns.  The result pairs
the trace of adapter calls actually made with either the assembled
record list or the uncaught exception.  `geocode lat lon` is
`Except.error` when the geocoding service itself fails and
`Except.ok none` when it finds no result for the coordinates. -/
def enrichLoopE (geocode : Rat → Rat → Except String (Option RawLocation))
    (getRating : Rat → Except String Int) :
    List Listing → List AdapterCall × Except String (List EnrichedRecord)
  | [] => ([], Except.ok [])
  | row :: rest =>
    match geocode row.latitude row.longitude with
    | Except.error e =>
        ([AdapterCall.reverseGeocode row.latitude row.longitude], Except.error e)
    | Except.ok loc =>
      match getRating row.listingId with
      | Except.error e =>
          ([AdapterCall.reverseGeocode row.latitude row.longitude,
            AdapterCall.getRating row.listingId], Except.error e)
      | Except.ok rtg =>
        match loc with
        | none =>
            ([AdapterCall.reverseGeocode row.latitude row.longitude,
              AdapterCall.getRating row.listingId], Except.error noneRawMsg)
        | some l =>
            let res := enrichLoopE geocode getRating rest
            (AdapterCall.reverseGeocode row.latitude row.longitude ::
               AdapterCall.getRating row.listingId :: res.fst,
             match res.snd with
             | Except.error e => Except.error e
             | Except.ok recs =>
                 Except.ok (⟨row.listingId, starsFor rtg, l.displayName⟩ :: recs))

/-- Concrete rows used by witness theorems. -/
def exListingA : Listing := ⟨1, 50, 52, 13, 500, 0⟩

def exListingB : Listing := ⟨2, 150, 53, 14, 500, 0⟩

def exRawLoc : RawLocation := ⟨"Unter den Linden, Mitte, Berlin"⟩

def exFetch : Int → Nat → Nat → List Int := fun _ _ _ => [5, 5]

/-! ### Theorems -/

/-- The two successive boolean-mask filters equal one filter by the
conjunction of the two inclusive predicates. -/
theorem filterListings_eq_filter (T : List Listing) (p d : Rat) :
    filterListings T p d
      = T.filter (fun r => decide (r.price ≤ p) && decide (r.distM ≤ d)) := by
  unfold filterListings
  rw [List.filter_filter]
  apply List.filter_congr
  intro a _
  exact Bool.and_comm _ _

/-- C1: for every table and inclusive thresholds, the filter keeps
exactly the rows with `price ≤ max_price` and `distance ≤ max_distance`,
and the result is a sublist of the input (a subset in identical row
order). -/
theorem filter_keeps_exactly_matching_rows (T : List Listing) (p d : Rat) :
    filterListings T p d
        = T.filter (fun r => decide (r.price ≤ p) && decide (r.distM ≤ d))
    ∧ (filterListings T p d).Sublist T
    ∧ ∀ r : Listing, r ∈ filterListings T p d ↔ r ∈ T ∧ r.price ≤ p ∧ r.distM ≤ d := by
  refine ⟨filterListings_eq_filter T p d, ?_, ?_⟩
  · rw [filterListings_eq_filter]
    exact List.filter_sublist T
  · intro r
    rw [filterListings_eq_filter, List.mem_filter]
    simp [and_assoc]

/-- C8: the filter is idempotent: applying it twice with the same
thresholds equals applying it once. -/
theorem filter_idempotent (T : List Listing) (p d : Rat) :
    filterListings (filterListings T p d) p d = filterListings T p d := by
  rw [filterListings_eq_filter (filterListings T p d),
      filterListings_eq_filter T, List.filter_filter]
  apply List.filter_congr
  intro a _
  exact Bool.and_self _

/-- C9: filtering is removal-only: the result is a sublist of the input
(so every surviving row is an unchanged row of the input, in order), and
in particular the listing ids of the survivors form a sublist of the
input's listing ids. -/
theorem filter_removal_only (T : List Listing) (p d : Rat) :
    (filterListings T p d).Sublist T
    ∧ ((filterListings T p d).map Listing.listingId).Sublist (T.map Listing.listingId) := by
  have h : (filterListings T p d).Sublist T := by
    rw [filterListings_eq_filter]
    exact List.filter_sublist T
  exact ⟨h, h.map _⟩

/-- C10: the map-centering step reads the first row of the filtered
table unconditionally: it yields the first row's coordinates exactly
when the filtered table is non-empty, and the access is out of bounds
(modelled `none`) exactly when the two threshold filters leave zero
rows. -/
theorem map_center_reads_first_filtered_row (T : List Listing) (p d : Rat) :
    (ilocMapCenter (filterListings T p d) = none ↔ filterListings T p d = [])
    ∧ ∀ row rest, filterListings T p d = row :: rest →
        ilocMapCenter (filterListings T p d) = some (row.latitude, row.longitude) := by
  constructor
  · cases h : filterListings T p d with
    | nil => simp [ilocMapCenter, h]
    | cons a t => simp [ilocMapCenter, h]
  · intro row rest h
    rw [h]
    rfl

/-- Witness for C10: a table whose single row fails the price filter
leaves an empty table and an out-of-bounds map-center access, while a
passing row centers the map on its coordinates. -/
theorem map_center_reads_first_filtered_row_witness :
    ilocMapCenter (filterListings [exListingB] 100 1000) = none
    ∧ ilocMapCenter (filterListings [exListingA] 100 1000) = some (52, 13) := by
  constructor
  · exact (map_center_reads_first_filtered_row [exListingB] 100 1000).1.mpr (by decide)
  · have h := (map_center_reads_first_filtered_row [exListingA] 100 1000).2
      exListingA [] (by decide)
    simpa [exListingA] using h

/-- Truncation toward zero coincides with the floor on non-negative
rationals. -/
theorem truncTowardZero_eq_floor (q : Rat) (hq : 0 ≤ q) :
    truncTowardZero q = ⌊q⌋ := by
  unfold truncTowardZero
  rw [Int.tdiv_eq_ediv (Rat.num_nonneg.mpr hq) (by positivity)]
  exact Rat.floor_def.symm

/-- Truncation toward zero coincides with the ceiling on non-positive
rationals. -/
theorem truncTowardZero_eq_ceil (q : Rat) (hq : q ≤ 0) :
    truncTowardZero q = ⌈q⌉ := by
  have h1 : truncTowardZero q = -truncTowardZero (-q) := by
    unfold truncTowardZero
    rw [Rat.neg_num, Rat.neg_den, Int.neg_tdiv, neg_neg]
  rw [h1, truncTowardZero_eq_floor (-q) (by linarith), Int.floor_neg, neg_neg]

/-- On a non-empty list the numpy average path is the exact mean
truncated toward zero. -/
theorem averageRatingCore_nonempty (ratings : List Int) (h : ratings ≠ []) :
    averageRatingCore ratings = truncTowardZero (listMean ratings) := by
  have hne : ratings.isEmpty = false := by
    simpa [List.isEmpty_iff] using h
  simp [averageRatingCore, npAverage, hne, castNpFloatToInt]

/-- C3: on a non-empty rating list the code returns the exact arithmetic
mean truncated toward zero (floor when the mean is non-negative, ceiling
when non-positive), and in particular ratings `[4,5,5]` give `4` and
`[5,5]` give `5`. -/
theorem average_rating_truncates (ratings : List Int) (h : ratings ≠ []) :
    averageRatingCore ratings = truncTowardZero (listMean ratings)
    ∧ (0 ≤ listMean ratings → averageRatingCore ratings = ⌊listMean ratings⌋)
    ∧ (listMean ratings ≤ 0 → averageRatingCore ratings = ⌈listMean ratings⌉)
    ∧ averageRatingCore [4, 5, 5] = 4 ∧ averageRatingCore [5, 5] = 5 := by
  have hcore := averageRatingCore_nonempty ratings h
  have hsc1 : averageRatingCore [4, 5, 5] = 4 := by
    rw [averageRatingCore_nonempty [4, 5, 5] (by decide)]
    have hm : listMean [4, 5, 5] = 14 / 3 := by
      norm_num [listMean]
    rw [hm, truncTowardZero_eq_floor _ (by norm_num)]
    norm_num
  have hsc2 : averageRatingCore [5, 5] = 5 := by
    rw [averageRatingCore_nonempty [5, 5] (by decide)]
    have hm : listMean [5, 5] = 5 := by
      norm_num [listMean]
    rw [hm, truncTowardZero_eq_floor _ (by norm_num)]
    norm_num
  refine ⟨hcore, ?_, ?_, hsc1, hsc2⟩
  · intro hpos
    rw [hcore, truncTowardZero_eq_floor _ hpos]
  · intro hneg
    rw [hcore, truncTowardZero_eq_ceil _ hneg]

/-- Witness for C3: evaluated on the spec's two scenarios. -/
theorem average_rating_truncates_witness :
    averageRatingCore [4, 5, 5] = 4 ∧ averageRatingCore [5, 5] = 5 :=
  ⟨(average_rating_truncates [4, 5, 5] (by decide)).2.2.2.1,
   (average_rating_truncates [5, 5] (by decide)).2.2.2.2⟩

/-- Counterexample for C2: on an empty review set the code does not
signal a no-reviews condition: `np.average` of the empty array is NaN,
and `get_airbnb_rating` returns the implementation-defined NaN cast as
an ordinary successful integer result. -/
theorem average_rating_empty_counterexample :
    npAverage [] = NpFloat.nan
    ∧ get_airbnb_rating (fun _ _ _ => []) "123" 0 20 = Except.ok npNanCastInt := by
  constructor
  · rfl
  · rfl

/-- C2 amended: whenever the cleaned id parses and the fetched review
set is empty, `get_airbnb_rating` neither raises an explicit no-reviews
error nor returns an undefined marker: it returns the NaN-derived
implementation-defined integer produced by `astype(int)` on NaN. -/
theorem average_rating_empty_amended (fetch : Int → Nat → Nat → List Int)
    (s : String) (off lim : Nat) (lid : Int)
    (hparse : parseIntPy (cleanListingId s) = some lid)
    (hempty : fetch lid off lim = []) :
    get_airbnb_rating fetch s off lim = Except.ok npNanCastInt := by
  simp [get_airbnb_rating, hparse, hempty, averageRatingCore, npAverage, castNpFloatToInt]

/-- Witness for the amended C2: a concrete empty-review service. -/
theorem average_rating_empty_amended_witness :
    get_airbnb_rating (fun _ _ _ => []) "124" 0 20 = Except.ok npNanCastInt :=
  average_rating_empty_amended (fun _ _ _ => []) "124" 0 20 124 (by decide) rfl

/-- Counterexample for C4: the code's normalization removes only dot
characters, not every non-digit formatting character: on `"12-34"` it
differs from digit-filtering normalization. -/
theorem id_normalization_counterexample :
    cleanListingId "12-34" ≠ specNormalizeId "12-34" := by decide

/-- C4 amended: normalization removes exactly the dot characters; on
identifiers whose only non-digit characters are dots — the
decimal-formatted case — this agrees with removing all non-digits, and
in particular `123.456` is normalized to `123456`, which is the key the
review service is queried with. -/
theorem id_normalization_amended :
    (∀ s : String, (∀ c ∈ s.data, c.isDigit = true ∨ c = '.') →
        cleanListingId s = specNormalizeId s)
    ∧ cleanListingId "123.456" = "123456"
    ∧ ∀ (fetch : Int → Nat → Nat → List Int) (off lim : Nat),
        get_airbnb_rating fetch "123.456" off lim
          = Except.ok (averageRatingCore (fetch 123456 off lim)) := by
  refine ⟨?_, by decide, ?_⟩
  · intro s h
    unfold cleanListingId specNormalizeId
    congr 1
    apply List.filter_congr
    intro c hc
    rcases h c hc with hd | hdot
    · have hne : (c != '.') = true := by
        by_cases hc2 : c = '.'
        · rw [hc2] at hd
          exact absurd hd (by decide)
        · simpa using hc2
      rw [hne, hd]
    · subst hdot
      decide
  · intro fetch off lim
    have hp : parseIntPy (cleanListingId "123.456") = some 123456 := by decide
    simp [get_airbnb_rating, hp]

/-- Witness for the amended C4: a concrete decimal-formatted id. -/
theorem id_normalization_amended_witness :
    cleanListingId "1.3" = specNormalizeId "1.3"
    ∧ get_airbnb_rating exFetch "123.456" 0 20
        = Except.ok (averageRatingCore (exFetch 123456 0 20)) :=
  ⟨id_normalization_amended.1 "1.3" (by decide),
   id_normalization_amended.2.2 exFetch 0 20⟩

/-- C5: when the adapters succeed on every input, the enrichment loop
visits the selection in original row order, calls the geocoding adapter
and then the rating adapter exactly once per row (the recorded trace is
exactly one pair of calls per row, in row order), and assembles exactly
one record per selected row, in the same order as the input. -/
theorem assemble_order_and_single_calls
    (geocode : Rat → Rat → Except String (Option RawLocation))
    (getRating : Rat → Except String Int)
    (locOf : Rat → Rat → RawLocation) (ratingOf : Rat → Int)
    (hgeo : ∀ la lo, geocode la lo = Except.ok (some (locOf la lo)))
    (hrate : ∀ i, getRating i = Except.ok (ratingOf i))
    (sel : List Listing) :
    enrichLoopE geocode getRating sel
      = (sel.flatMap (fun row =>
            [AdapterCall.reverseGeocode row.latitude row.longitude,
             AdapterCall.getRating row.listingId]),
         Except.ok (sel.map (fun row =>
           ⟨row.listingId, starsFor (ratingOf row.listingId),
            (locOf row.latitude row.longitude).displayName⟩))) := by
  induction sel with
  | nil => rfl
  | cons row rest ih =>
      simp [enrichLoopE, hgeo, hrate, ih]

/-- Witness for C5: two concrete rows with constant adapters yield two
records in row order and exactly one geocode plus one rating call per
row. -/
theorem assemble_order_and_single_calls_witness :
    enrichLoopE (fun _ _ => Except.ok (some exRawLoc)) (fun _ => Except.ok 5)
        [exListingA, exListingB]
      = ([AdapterCall.reverseGeocode 52 13, AdapterCall.getRating 1,
          AdapterCall.reverseGeocode 53 14, AdapterCall.getRating 2],
         Except.ok [⟨1, starsFor 5, exRawLoc.displayName⟩,
                    ⟨2, starsFor 5, exRawLoc.displayName⟩]) := by
  have h := assemble_order_and_single_calls (fun _ _ => Except.ok (some exRawLoc))
      (fun _ => Except.ok 5) (fun _ _ => exRawLoc) (fun _ => 5)
      (fun _ _ => rfl) (fun _ => rfl) [exListingA, exListingB]
  simpa [exListingA, exListingB] using h

/-- Counterexample for C6: with a geocoding service that fails, the
enrichment pass over two rows aborts at the first row: the uncaught
exception is the overall result, the second row is never processed (its
adapter calls are absent from the trace), and no record carries an error
marker. -/
theorem enrichment_aborts_counterexample :
    enrichLoopE (fun _ _ => Except.error "GeocoderUnavailable") (fun _ => Except.ok 5)
        [exListingA, exListingB]
      = ([AdapterCall.reverseGeocode 52 13], Except.error "GeocoderUnavailable") := by
  rfl

/-- C6 amended: the loop has no per-row error isolation: a geocoding
failure on a row aborts the whole pass right after that row's geocoding
call, and a rating failure aborts it right after that row's two adapter
calls; later rows are not processed and no error marker is recorded. -/
theorem enrichment_failure_aborts
    (geocode : Rat → Rat → Except String (Option RawLocation))
    (getRating : Rat → Except String Int)
    (row : Listing) (rest : List Listing) (e : String) :
    (geocode row.latitude row.longitude = Except.error e →
        enrichLoopE geocode getRating (row :: rest)
          = ([AdapterCall.reverseGeocode row.latitude row.longitude], Except.error e))
    ∧ ∀ loc, geocode row.latitude row.longitude = Except.ok loc →
        getRating row.listingId = Except.error e →
        enrichLoopE geocode getRating (row :: rest)
          = ([AdapterCall.reverseGeocode row.latitude row.longitude,
              AdapterCall.getRating row.listingId], Except.error e) := by
  constructor
  · intro hg
    simp [enrichLoopE, hg]
  · intro loc hg hr
    cases loc with
    | none => simp [enrichLoopE, hg, hr]
    | some l => simp [enrichLoopE, hg, hr]

/-- Witness for the amended C6: concrete failing adapters on concrete
rows. -/
theorem enrichment_failure_aborts_witness :
    enrichLoopE (fun _ _ => Except.error "boom") (fun _ => Except.ok 5)
        [exListingA, exListingB]
      = ([AdapterCall.reverseGeocode exListingA.latitude exListingA.longitude],
         Except.error "boom")
    ∧ enrichLoopE (fun _ _ => Except.ok (some exRawLoc)) (fun _ => Except.error "down")
        [exListingB]
      = ([AdapterCall.reverseGeocode exListingB.latitude exListingB.longitude,
          AdapterCall.getRating exListingB.listingId], Except.error "down") :=
  ⟨(enrichment_failure_aborts (fun _ _ => Except.error "boom") (fun _ => Except.ok 5)
      exListingA [exListingB] "boom").1 rfl,
   (enrichment_failure_aborts (fun _ _ => Except.ok (some exRawLoc))
      (fun _ => Except.error "down") exListingB [] "down").2 (some exRawLoc) rfl rfl⟩

/-- Counterexample for C7: when the geocoding service finds no result
(`None`), the code still fetches the row's rating but then crashes with
an AttributeError while reading `location.raw`; the pass aborts and no
record with an empty address and a populated rating is produced. -/
theorem geocode_none_crash_counterexample :
    enrichLoopE (fun _ _ => Except.ok none) (fun _ => Except.ok 4) [exListingA]
      = ([AdapterCall.reverseGeocode 52 13, AdapterCall.getRating 1],
         Except.error noneRawMsg) := by
  rfl

/-- C7 amended: a no-result reverse geocode on a row makes the loop
fetch that row's rating and then raise an AttributeError on
`location.raw`, aborting the pass; it never yields a record with an
empty address. -/
theorem geocode_no_result_raises
    (geocode : Rat → Rat → Except String (Option RawLocation))
    (getRating : Rat → Except String Int)
    (row : Listing) (rest : List Listing) (rv : Int)
    (hg : geocode row.latitude row.longitude = Except.ok none)
    (hr : getRating row.listingId = Except.ok rv) :
    enrichLoopE geocode getRating (row :: rest)
      = ([AdapterCall.reverseGeocode row.latitude row.longitude,
          AdapterCall.getRating row.listingId], Except.error noneRawMsg) := by
  simp [enrichLoopE, hg, hr]

/-- Witness for the amended C7: a concrete no-result geocoder with a
working rating service. -/
theorem geocode_no_result_raises_witness :
    enrichLoopE (fun _ _ => Except.ok none) (fun _ => Except.ok 3)
        [exListingB, exListingA]
      = ([AdapterCall.reverseGeocode exListingB.latitude exListingB.longitude,
          AdapterCall.getRating exListingB.listingId], Except.error noneRawMsg) :=
  geocode_no_result_raises (fun _ _ => Except.ok none) (fun _ => Except.ok 3)
    exListingB [exListingA] 3 rfl rfl

end AirbnbApp
